import Mathlib

/-!
Verification of the meal-analysis pipeline (`scripts/food_analyzer.py`,
`scripts/pdf_generator.py`, `config_template.py`) against its natural-language
specification.  The Python code is shallowly embedded: pure data manipulation
(string handling, JSON extraction, payload construction, filtering, score
colouring) is translated into executable Lean definitions, while the external
effects (HTTP transports, the vision model, the PDF library) are supplied as
explicit oracle inputs.
-/

set_option maxRecDepth 8000

namespace FoodInsight

/-! ## Python string primitives used by the analyzer -/

/-- Whitespace set removed by Python's `str.strip()` (ASCII portion). -/
def pyIsSpace (c : Char) : Bool :=
  c = ' ' || c = '\t' || c = '\n' || c = '\r' || c = Char.ofNat 11 || c = Char.ofNat 12

/-- Python `str.strip()` on a character list. -/
def pyStrip (s : List Char) : List Char :=
  ((s.dropWhile pyIsSpace).reverse.dropWhile pyIsSpace).reverse

/-- Python's `sep in s` substring test (for nonempty `sep`). -/
def listHasSub (sep : List Char) : List Char → Bool
  | [] => sep.isEmpty
  | c :: rest => sep.isPrefixOf (c :: rest) || listHasSub sep rest

/-- Worker for `pySplit`; `fuel` dominates the number of characters left. -/
def pySplitAux (sep : List Char) : Nat → List Char → List Char → List (List Char)
  | 0, acc, s => [acc.reverse ++ s]
  | fuel + 1, acc, s =>
    if sep.isPrefixOf s then
      acc.reverse :: pySplitAux sep fuel [] (s.drop sep.length)
    else
      match s with
      | [] => [acc.reverse]
      | c :: rest => pySplitAux sep fuel (c :: acc) rest

/-- Python `s.split(sep)` for a nonempty separator. -/
def pySplit (sep s : List Char) : List (List Char) :=
  pySplitAux sep (s.length + 1) [] s

/-- Python list indexing as used in guarded positions of the analyzer. -/
def pyIdx (l : List (List Char)) (i : Nat) : List Char :=
  l.getD i []

/-- The `\x7b` character (opening curly bracket). -/
def lbrace : Char := Char.ofNat 123

/-- The `\x7d` character (closing curly bracket). -/
def rbrace : Char := Char.ofNat 125

/-! ## JSON values, mirroring what Python's `json.loads` produces -/

/-- A parsed JSON value (numbers as rationals, objects as key/value lists in
insertion order with last-occurrence-wins semantics as in Python dicts). -/
inductive JsonVal where
  | num (q : Rat)
  | str (s : String)
  | jbool (b : Bool)
  | null
  | arr (elems : List JsonVal)
  | obj (fields : List (String × JsonVal))

/-- Python dict insertion: overwrites in place, else appends. -/
def dictInsert (d : List (String × JsonVal)) (k : String) (v : JsonVal) :
    List (String × JsonVal) :=
  if d.any (fun p => p.1 == k) then
    d.map (fun p => if p.1 == k then (k, v) else p)
  else
    d ++ [(k, v)]

/-- Python `d.get(k, dflt)` on a parsed JSON object. -/
def pyGetD (d : List (String × JsonVal)) (k : String) (dflt : JsonVal) : JsonVal :=
  (d.lookup k).getD dflt

/-- JSON structural whitespace. -/
def jsonWs (c : Char) : Bool :=
  c = ' ' || c = '\t' || c = '\n' || c = '\r'

/-- Skip JSON whitespace. -/
def skipWs : List Char → List Char
  | [] => []
  | c :: rest => if jsonWs c then skipWs rest else c :: rest

/-- JSON string escapes handled by the embedded parser. -/
def escMap (c : Char) : Option Char :=
  if c = '"' then some '"'
  else if c = '\\' then some '\\'
  else if c = '/' then some '/'
  else if c = 'n' then some '\n'
  else if c = 't' then some '\t'
  else if c = 'r' then some '\r'
  else if c = 'b' then some (Char.ofNat 8)
  else if c = 'f' then some (Char.ofNat 12)
  else none

/-- Parse the body of a JSON string after the opening quote; returns the
decoded characters and the remaining input. -/
def parseStrBody : List Char → Option (List Char × List Char)
  | [] => none
  | c :: rest =>
    if c = '"' then some ([], rest)
    else if c = '\\' then
      match rest with
      | [] => none
      | e :: rest2 =>
        match escMap e with
        | none => none
        | some ec =>
          match parseStrBody rest2 with
          | none => none
          | some (s, r) => some (ec :: s, r)
    else
      match parseStrBody rest with
      | none => none
      | some (s, r) => some (c :: s, r)

/-- Numeric value of a digit string. -/
def digitsVal (ds : List Char) : Nat :=
  ds.foldl (fun a c => a * 10 + (c.toNat - 48)) 0

/-- Parse a JSON number (optional sign, integer part, optional fraction). -/
def parseNumber (cs : List Char) : Option (Rat × List Char) :=
  let signed : Bool × List Char :=
    match cs with
    | c :: rest => if c = '-' then (true, rest) else (false, cs)
    | [] => (false, cs)
  let neg := signed.1
  let afterSign := signed.2
  let intSpan := afterSign.span Char.isDigit
  if intSpan.1.isEmpty then none
  else
    let intVal : Rat := (digitsVal intSpan.1 : Nat)
    match intSpan.2 with
    | c :: rest =>
      if c = '.' then
        let fracSpan := rest.span Char.isDigit
        if fracSpan.1.isEmpty then none
        else
          let q : Rat := intVal + (digitsVal fracSpan.1 : Nat) / ((10 : Rat) ^ fracSpan.1.length)
          some (if neg then -q else q, fracSpan.2)
      else some (if neg then -intVal else intVal, intSpan.2)
    | [] => some (if neg then -intVal else intVal, intSpan.2)

mutual

/-- Parse one JSON value. -/
def parseVal : Nat → List Char → Option (JsonVal × List Char)
  | 0, _ => none
  | fuel + 1, cs =>
    match skipWs cs with
    | [] => none
    | c :: rest =>
      if c = '"' then
        match parseStrBody rest with
        | none => none
        | some (s, r) => some (JsonVal.str (String.mk s), r)
      else if c = lbrace then parseObjStart fuel rest
      else if c = '[' then parseArrStart fuel rest
      else if c = 't' then
        match rest with
        | 'r' :: 'u' :: 'e' :: r => some (JsonVal.jbool true, r)
        | _ => none
      else if c = 'f' then
        match rest with
        | 'a' :: 'l' :: 's' :: 'e' :: r => some (JsonVal.jbool false, r)
        | _ => none
      else if c = 'n' then
        match rest with
        | 'u' :: 'l' :: 'l' :: r => some (JsonVal.null, r)
        | _ => none
      else
        match parseNumber (c :: rest) with
        | none => none
        | some (q, r) => some (JsonVal.num q, r)

/-- Parse an object right after its opening bracket. -/
def parseObjStart : Nat → List Char → Option (JsonVal × List Char)
  | 0, _ => none
  | fuel + 1, cs =>
    match skipWs cs with
    | [] => none
    | c :: rest =>
      if c = rbrace then some (JsonVal.obj [], rest)
      else
        match parseMember fuel (c :: rest) with
        | none => none
        | some (k, v, r) => parseObjRest fuel r (dictInsert [] k v)

/-- Parse the continuation of an object after at least one member. -/
def parseObjRest : Nat → List Char → List (String × JsonVal) →
    Option (JsonVal × List Char)
  | 0, _, _ => none
  | fuel + 1, cs, acc =>
    match skipWs cs with
    | [] => none
    | c :: rest =>
      if c = rbrace then some (JsonVal.obj acc, rest)
      else if c = ',' then
        match parseMember fuel rest with
        | none => none
        | some (k, v, r) => parseObjRest fuel r (dictInsert acc k v)
      else none

/-- Parse one `"key": value` member. -/
def parseMember : Nat → List Char → Option (String × JsonVal × List Char)
  | 0, _ => none
  | fuel + 1, cs =>
    match skipWs cs with
    | [] => none
    | c :: rest =>
      if c = '"' then
        match parseStrBody rest with
        | none => none
        | some (k, r) =>
          match skipWs r with
          | ':' :: r2 =>
            match parseVal fuel r2 with
            | none => none
            | some (v, r3) => some (String.mk k, v, r3)
          | _ => none
      else none

/-- Parse an array right after its opening bracket. -/
def parseArrStart : Nat → List Char → Option (JsonVal × List Char)
  | 0, _ => none
  | fuel + 1, cs =>
    match skipWs cs with
    | [] => none
    | c :: rest =>
      if c = ']' then some (JsonVal.arr [], rest)
      else
        match parseVal fuel (c :: rest) with
        | none => none
        | some (v, r) => parseArrRest fuel r [v]

/-- Parse the continuation of an array after at least one element. -/
def parseArrRest : Nat → List Char → List JsonVal → Option (JsonVal × List Char)
  | 0, _, _ => none
  | fuel + 1, cs, acc =>
    match skipWs cs with
    | [] => none
    | c :: rest =>
      if c = ']' then some (JsonVal.arr acc.reverse, rest)
      else if c = ',' then
        match parseVal fuel rest with
        | none => none
        | some (v, r) => parseArrRest fuel r (v :: acc)
      else none

end

/-- `json.loads`: parse one value and require only whitespace afterwards. -/
def jsonLoads (cs : List Char) : Option JsonVal :=
  match parseVal (4 * cs.length + 8) cs with
  | some (v, rest) => if (skipWs rest).isEmpty then some v else none
  | none => none

/-- Keep the result only when it is a JSON object; mirrors the fact that the
analyzer immediately calls `.get` on the parsed value, so any non-dict result
raises and is swallowed by the surrounding handler. -/
def objFieldsOf : Option JsonVal → Option (List (String × JsonVal))
  | some (JsonVal.obj d) => some d
  | _ => none

/-! ## Vision analyzer response handling (`analyze_food_with_openai`) -/

/-- The plain code fence marker. -/
def fence : List Char := "```".toList

/-- The JSON code fence marker. -/
def fenceJson : List Char := "```json".toList

/-- Lines 199-209 of `analyze_food_with_openai`: strip the raw model text,
peel a fenced code block when one of the fence markers occurs, then run
`json.loads` on the result and keep it only when it is an object. -/
def parseModelResponse (raw : String) : Option (List (String × JsonVal)) :=
  let t := pyStrip raw.toList
  let block :=
    if listHasSub fenceJson t then
      pyIdx (pySplit fence (pyIdx (pySplit fenceJson t) 1)) 0
    else if listHasSub fence t then
      pyIdx (pySplit fence (pyIdx (pySplit fence t) 1)) 0
    else t
  objFieldsOf (jsonLoads block)

/-- `analyze_food_with_openai`: the model transport either fails (any API
exception, returning `None`) or yields the raw completion text, which is then
parsed tolerantly. -/
def analyze_food_with_openai (api : Except Unit String) :
    Option (List (String × JsonVal)) :=
  match api with
  | .error _ => none
  | .ok raw => parseModelResponse raw

/-- Modelled from the spec: the "first balanced span" scan the specification
requires as parsing fallback (b); used only to state what the code omits.
Matches an opening curly bracket and accumulates until the matching close. -/
def balancedClose : Nat → List Char → List Char → Option (List Char)
  | _, _, [] => none
  | d, acc, c :: rest =>
    if c = lbrace then balancedClose (d + 1) (c :: acc) rest
    else if c = rbrace then
      if d = 1 then some (c :: acc).reverse
      else balancedClose (d - 1) (c :: acc) rest
    else balancedClose d (c :: acc) rest

/-- Modelled from the spec: first balanced curly-bracketed span of a text. -/
def firstBalancedSpan : List Char → Option (List Char)
  | [] => none
  | c :: rest =>
    if c = lbrace then balancedClose 1 [c] rest else firstBalancedSpan rest

/-! ## Record-store write-back (`update_notion_entry`) -/

/-- A value of the patch payload sent to the record store. -/
inductive NotionVal where
  | title (content : JsonVal)
  | checkbox (b : Bool)
  | number (v : JsonVal)
  | richText (content : JsonVal)
  | date (start : String)

/-- The `properties` payload built by `update_notion_entry` (lines 225-272),
in source order.  Every value is read from the analysis dict with the
source's defaults; `now` stands for `datetime.now().isoformat()`. -/
def updatePayload (analysis : List (String × JsonVal)) (now : String) :
    List (String × NotionVal) :=
  [("Food Name", NotionVal.title (pyGetD analysis "food_name" (JsonVal.str "Unknown"))),
   ("AI Analysis Done", NotionVal.checkbox true),
   ("KCal Count", NotionVal.number (pyGetD analysis "estimated_kcal" (JsonVal.num 0))),
   ("Protein (g)", NotionVal.number (pyGetD analysis "protein_g" (JsonVal.num 0))),
   ("Carbs (g)", NotionVal.number (pyGetD analysis "carbs_g" (JsonVal.num 0))),
   ("Fat (g)", NotionVal.number (pyGetD analysis "fat_g" (JsonVal.num 0))),
   ("Food Score", NotionVal.number (pyGetD analysis "food_score" (JsonVal.num 0))),
   ("AI Insight", NotionVal.richText (pyGetD analysis "ai_insight" (JsonVal.str ""))),
   ("Healthy Tips", NotionVal.richText (pyGetD analysis "healthy_tips" (JsonVal.str ""))),
   ("Analysis DateTime", NotionVal.date now)]

/-- One PATCH request against the record store's pages endpoint. -/
structure PatchReq where
  target : String
  props : List (String × NotionVal)

/-- `update_notion_entry`: issues exactly one PATCH request carrying the full
payload; `transportOk` is the outcome of `requests.patch` (a raised
`RequestException` is caught and turned into `False`). -/
def update_notion_entry (entryId : String) (analysis : List (String × JsonVal))
    (now : String) (transportOk : Bool) : List PatchReq × Bool :=
  ([⟨entryId, updatePayload analysis now⟩], transportOk)

/-- The remote record state: fields of a page.  Applying a patch overwrites
exactly the fields named in the payload. -/
def applyProps (s : String → Option NotionVal) (props : List (String × NotionVal)) :
    String → Option NotionVal :=
  fun k =>
    match props.lookup k with
    | some v => some v
    | none => s k

/-! ## Per-record pipeline (`process_food_entry`) and the run (`main`) -/

/-- Externally observable side effects of processing one record. -/
inductive Effect where
  | patchRequest (entryId : String) (props : List (String × NotionVal))
  | savePdf (entryId : String) (content : List Nat)

/-- Python truthiness test `not x` for an optional bytes/dict value:
`None` and empty containers are falsy. -/
def pyFalsy {α : Type} (x : Option (List α)) : Bool :=
  match x with
  | none => true
  | some l => l.isEmpty

/-- External behaviors one record's processing can encounter: the extracted
image (from `extract_image_from_notion_entry`), the model transport, the PDF
renderer (`generate_food_infographic` may raise or return bytes/`None`), and
the PATCH transport. -/
structure Oracle where
  imageData : Option (List Nat)
  apiResponse : Except Unit String
  renderOutcome : Except Unit (Option (List Nat))
  patchOk : Bool

/-- `process_food_entry` (lines 298-352): skip on missing image, fail on
failed analysis, render inside its own handler, always attempt the write-back
once image and analysis are available, and save the PDF artifact only when
the write-back succeeded and PDF bytes exist. -/
def process_food_entry (entryId : String) (o : Oracle) (now : String) :
    Bool × List Effect :=
  if pyFalsy o.imageData then (false, [])
  else
    let analysis := analyze_food_with_openai o.apiResponse
    if pyFalsy analysis then (false, [])
    else
      let d := analysis.getD []
      let pdfData : Option (List Nat) :=
        match o.renderOutcome with
        | .error _ => none
        | .ok p => p
      let r := update_notion_entry entryId d now o.patchOk
      let saves : List Effect :=
        if r.2 && !(pyFalsy pdfData) then
          [Effect.savePdf entryId (pdfData.getD [])]
        else []
      (r.2, r.1.map (fun q => Effect.patchRequest q.target q.props) ++ saves)

/-- Predicate selecting artifact saves among effects. -/
def isSave : Effect → Bool
  | Effect.savePdf _ _ => true
  | _ => false

/-- Predicate selecting PATCH requests among effects. -/
def isPatch : Effect → Bool
  | Effect.patchRequest _ _ => true
  | _ => false

/-- The PATCH requests among a record's effects. -/
def patchEffects (es : List Effect) : List Effect :=
  es.filter isPatch

/-- The success-counting loop of `main` (lines 373-376). -/
def runBatch (entries : List (String × Oracle)) (now : String) : Nat :=
  entries.foldl
    (fun acc e => if (process_food_entry e.1 e.2 now).1 then acc + 1 else acc) 0

/-- What one run reports: the number of fetched entries and, unless the batch
was empty (early return after "No new entries to process"), the success count
of the closing summary line. -/
structure RunReport where
  found : Nat
  succeeded : Option Nat

/-- `main` (lines 365-378) after a successful fetch: report the batch size,
return early on an empty batch, otherwise process every entry in order and
report the success count. -/
def mainRun (entries : List (String × Oracle)) (now : String) : RunReport :=
  if entries.isEmpty then ⟨entries.length, none⟩
  else ⟨entries.length, some (runBatch entries now)⟩

/-! ## Fetching pending records (`get_notion_database_items`) -/

/-- The `AI Analysis Done` property of a fetched page as the code reads it:
its `type` tag and its `checkbox` value, each possibly absent. -/
structure CheckProp where
  ptype : Option String
  checked : Option Bool
  deriving DecidableEq

/-- A fetched page: its identifier and its `AI Analysis Done` property
(`none` models `properties` lacking the key, in which case the code reads
from the `{}` default). -/
structure NotionPage where
  pageId : String
  analysisDone : Option CheckProp
  deriving DecidableEq

/-- The local filter of `get_notion_database_items` (lines 73-81): a page is
kept when its completion property is not a checked checkbox. -/
def notCompleted (entry : NotionPage) : Bool :=
  match entry.analysisDone with
  | some p => if p.ptype = some "checkbox" then !(p.checked.getD false) else true
  | none => true

/-- The `page_size` bound of the fetch query (line 64). -/
def query_page_size : Nat := 10

/-- `get_notion_database_items`: on transport failure return `[]`, otherwise
filter the returned pages locally for unanalyzed entries. -/
def get_notion_database_items (resp : Except Unit (List NotionPage)) :
    List NotionPage :=
  match resp with
  | .error _ => []
  | .ok results => results.filter notCompleted

/-! ## Score colouring (`generate_score_color` and the config tables) -/

/-- `COLOR_PALETTE` of `pdf_generator.py`. -/
def COLOR_PALETTE : List (String × String) :=
  [("primary", "#2DD4BF"), ("secondary", "#F472B6"), ("accent_1", "#A78BFA"),
   ("accent_2", "#FBBF24"), ("dark_bg", "#0F172A"), ("light_bg", "#F8FAFC"),
   ("text_dark", "#1E293B"), ("text_light", "#64748B"), ("success", "#10B981"),
   ("warning", "#F97316")]

/-- Python dict indexing on a string-valued table (key known present). -/
def palGet (tbl : List (String × String)) (k : String) : String :=
  (tbl.lookup k).getD ""

/-- `generate_score_color` (pdf_generator.py lines 36-45). -/
def generate_score_color (score : Rat) : String :=
  if 80 ≤ score then palGet COLOR_PALETTE "success"
  else if 60 ≤ score then palGet COLOR_PALETTE "accent_2"
  else if 40 ≤ score then palGet COLOR_PALETTE "warning"
  else "#EF4444"

/-- `PDF_COLOR_PALETTE` of `config_template.py`. -/
def PDF_COLOR_PALETTE : List (String × String) :=
  [("primary", "#2DD4BF"), ("secondary", "#F472B6"), ("accent_1", "#A78BFA"),
   ("accent_2", "#FBBF24"), ("dark_bg", "#0F172A"), ("light_bg", "#F8FAFC"),
   ("text_dark", "#1E293B"), ("text_light", "#64748B"), ("success", "#10B981"),
   ("warning", "#F97316"), ("danger", "#EF4444")]

/-- `FOOD_SCORE_THRESHOLDS` of `config_template.py`. -/
def FOOD_SCORE_THRESHOLDS : List (String × Rat) :=
  [("excellent", 80), ("good", 60), ("fair", 40), ("poor", 0)]

/-- Threshold lookup on the config table. -/
def thrGet (k : String) : Rat :=
  (FOOD_SCORE_THRESHOLDS.lookup k).getD 0

/-- The claim's threshold table, phrased from the specification: lower bounds
are inclusive, "good" renders in the amber accent, "poor" in the danger
colour. -/
def specBadgeColor (score : Rat) : String :=
  if score < thrGet "fair" then palGet PDF_COLOR_PALETTE "danger"
  else if score < thrGet "good" then palGet PDF_COLOR_PALETTE "warning"
  else if score < thrGet "excellent" then palGet PDF_COLOR_PALETTE "accent_2"
  else palGet PDF_COLOR_PALETTE "success"

/-! ## Example model responses used by the concrete theorems -/

/-- The specification's own test vector: a fenced JSON block with prose
around it. -/
def specFencedResponse : String :=
  "Sure! ```json\n\x7b\"food_name\":\"Dal\",\"estimated_kcal\":300\x7d\n```"

/-- A response with prose before a balanced JSON object and no fence. -/
def bareObjResponse : String :=
  "Sure! \x7b\"food_name\":\"Dal\",\"estimated_kcal\":300\x7d"

/-- A parseable response whose numeric values are out of range. -/
def outOfRangeResponse : String :=
  "\x7b\"food_name\":\"X\",\"food_score\":150,\"estimated_kcal\":-5\x7d"

/-- The dict `json.loads` produces for `outOfRangeResponse`. -/
def outOfRangeDict : List (String × JsonVal) :=
  [("food_name", JsonVal.str "X"), ("food_score", JsonVal.num 150),
   ("estimated_kcal", JsonVal.num (-5))]

/-! ## Helper lemmas -/

theorem isPrefixOf_of_append_isPrefixOf (a : List Char) :
    ∀ (b s : List Char), (a ++ b).isPrefixOf s = true → a.isPrefixOf s = true := by
  induction a with
  | nil => intro b s _; simp [List.isPrefixOf]
  | cons x xs ih =>
    intro b s h
    cases s with
    | nil => simp [List.isPrefixOf] at h
    | cons y ys =>
      simp only [List.cons_append, List.isPrefixOf] at h ⊢
      rcases Bool.and_eq_true_iff.mp h with ⟨hx, hrest⟩
      exact Bool.and_eq_true_iff.mpr ⟨hx, ih b ys hrest⟩

theorem listHasSub_of_append (a b : List Char) :
    ∀ s, listHasSub (a ++ b) s = true → listHasSub a s = true := by
  intro s
  induction s with
  | nil =>
    intro h
    simp only [listHasSub, List.isEmpty_eq_true, List.append_eq_nil] at h ⊢
    exact h.1
  | cons c rest ih =>
    intro h
    simp only [listHasSub, Bool.or_eq_true] at h ⊢
    rcases h with h | h
    · exact Or.inl (isPrefixOf_of_append_isPrefixOf a b _ h)
    · exact Or.inr (ih h)

theorem fenceJson_eq_append : fenceJson = fence ++ "json".toList := rfl

theorem listHasSub_fence_of_fenceJson (s : List Char)
    (h : listHasSub fenceJson s = true) : listHasSub fence s = true := by
  rw [fenceJson_eq_append] at h
  exact listHasSub_of_append fence ("json".toList) s h

theorem lookup_none_of_keys_eq {β : Type} (p q : List (String × β))
    (hk : p.map Prod.fst = q.map Prod.fst) :
    ∀ k, q.lookup k = none → p.lookup k = none := by
  induction p generalizing q with
  | nil => intro k _; rfl
  | cons hd tl ih =>
    cases q with
    | nil => intro k _; simp at hk
    | cons qhd qtl =>
      intro k hq
      simp only [List.map_cons, List.cons.injEq] at hk
      simp only [List.lookup] at hq ⊢
      rw [hk.1]
      cases hbeq : (k == qhd.1) with
      | true => rw [hbeq] at hq; simp at hq
      | false =>
        rw [hbeq] at hq
        simp only []
        exact ih qtl hk.2 k hq

theorem applyProps_overwrite (s : String → Option NotionVal)
    (p q : List (String × NotionVal)) (hk : p.map Prod.fst = q.map Prod.fst) :
    applyProps (applyProps s p) q = applyProps s q := by
  funext k
  simp only [applyProps]
  cases hq : q.lookup k with
  | some v => rfl
  | none => rw [lookup_none_of_keys_eq p q hk k hq]

theorem foldl_count_shift {α : Type} (p : α → Bool) (l : List α) :
    ∀ acc : Nat,
      l.foldl (fun a e => if p e then a + 1 else a) acc
        = acc + l.foldl (fun a e => if p e then a + 1 else a) 0 := by
  induction l with
  | nil => intro acc; simp
  | cons hd tl ih =>
    intro acc
    simp only [List.foldl_cons]
    rw [ih (if p hd then acc + 1 else acc), ih (if p hd then 0 + 1 else 0)]
    cases hp : p hd
    · simp [hp]
    · simp [hp]
      omega

theorem runBatch_append (l1 l2 : List (String × Oracle)) (now : String) :
    runBatch (l1 ++ l2) now = runBatch l1 now + runBatch l2 now := by
  simp only [runBatch, List.foldl_append]
  rw [foldl_count_shift (fun e => (process_food_entry e.1 e.2 now).1) l2]

theorem runBatch_cons (e : String × Oracle) (l : List (String × Oracle)) (now : String) :
    runBatch (e :: l) now
      = (if (process_food_entry e.1 e.2 now).1 then 1 else 0) + runBatch l now := by
  simp only [runBatch, List.foldl_cons]
  rw [foldl_count_shift (fun x => (process_food_entry x.1 x.2 now).1) l]

/-! ## Claim theorems -/

/-- C1 counterexample: the claim requires that a response with no fence but
one balanced, parseable JSON object still parses (fallback (b)).  On
`bareObjResponse` the first balanced span exists and is valid JSON, yet the
analyzer returns the absent result: the code attempts a strict parse of the
whole text and has no balanced-brace scan. -/
theorem C1_counterexample :
    firstBalancedSpan (pyStrip bareObjResponse.toList)
        = some ("\x7b\"food_name\":\"Dal\",\"estimated_kcal\":300\x7d".toList)
    ∧ jsonLoads ("\x7b\"food_name\":\"Dal\",\"estimated_kcal\":300\x7d".toList)
        = some (JsonVal.obj
            [("food_name", JsonVal.str "Dal"), ("estimated_kcal", JsonVal.num 300)])
    ∧ parseModelResponse bareObjResponse = none :=
  ⟨rfl, rfl, rfl⟩

/-- C1 (amended): the analyzer strips fenced code-block markers when present
(the specification's fenced test vector parses to the expected fields), but
when the text contains no fence marker it simply attempts a strict JSON
parse of the whole stripped text — there is no balanced-brace fallback scan,
so it fails exactly when that strict parse does not yield an object. -/
theorem C1_no_brace_scan :
    (∀ raw : String, listHasSub fence (pyStrip raw.toList) = false →
        parseModelResponse raw = objFieldsOf (jsonLoads (pyStrip raw.toList)))
    ∧ parseModelResponse specFencedResponse
        = some [("food_name", JsonVal.str "Dal"), ("estimated_kcal", JsonVal.num 300)] := by
  constructor
  · intro raw h
    have hj : listHasSub fenceJson (pyStrip raw.toList) = false := by
      cases hc : listHasSub fenceJson (pyStrip raw.toList)
      · rfl
      · rw [listHasSub_fence_of_fenceJson _ hc] at h
        exact absurd h (by simp)
    have h' : listHasSub fence (pyStrip raw.data) = false := h
    have hj' : listHasSub fenceJson (pyStrip raw.data) = false := hj
    simp [parseModelResponse, h', hj']
  · rfl

/-- C1 witness: the no-fence branch of `C1_no_brace_scan` at a concrete
fence-free input. -/
theorem C1_no_brace_scan_witness :
    parseModelResponse "\x7b\"estimated_kcal\":300\x7d"
      = objFieldsOf (jsonLoads (pyStrip ("\x7b\"estimated_kcal\":300\x7d".toList))) :=
  C1_no_brace_scan.1 "\x7b\"estimated_kcal\":300\x7d" rfl

/-- C2 counterexample: a parsed estimate with `food_score` 150 and
`estimated_kcal` -5 is written back exactly as parsed — the score exceeds
100 and the calorie field is negative, so no clamping or sign check exists. -/
theorem C2_counterexample :
    parseModelResponse outOfRangeResponse = some outOfRangeDict
    ∧ (updatePayload outOfRangeDict "2026-01-01T00:00:00").lookup "Food Score"
        = some (NotionVal.number (JsonVal.num 150))
    ∧ (updatePayload outOfRangeDict "2026-01-01T00:00:00").lookup "KCal Count"
        = some (NotionVal.number (JsonVal.num (-5)))
    ∧ ¬ ((150 : Rat) ≤ 100)
    ∧ ((-5 : Rat) < 0) :=
  ⟨rfl, rfl, rfl, by decide, by decide⟩

/-- C2 (amended): each numeric field of the write-back payload is the parsed
value passed through unchanged — `dict.get` with default 0 — so a missing
numeric field is written as zero, while a present value is not clamped to
[0, 100] and not checked for non-negativity. -/
theorem C2_passthrough_defaults :
    ∀ (a : List (String × JsonVal)) (now : String),
    (updatePayload a now).lookup "KCal Count"
        = some (NotionVal.number (pyGetD a "estimated_kcal" (JsonVal.num 0)))
    ∧ (updatePayload a now).lookup "Protein (g)"
        = some (NotionVal.number (pyGetD a "protein_g" (JsonVal.num 0)))
    ∧ (updatePayload a now).lookup "Carbs (g)"
        = some (NotionVal.number (pyGetD a "carbs_g" (JsonVal.num 0)))
    ∧ (updatePayload a now).lookup "Fat (g)"
        = some (NotionVal.number (pyGetD a "fat_g" (JsonVal.num 0)))
    ∧ (updatePayload a now).lookup "Food Score"
        = some (NotionVal.number (pyGetD a "food_score" (JsonVal.num 0)))
    ∧ (a.lookup "food_score" = none →
        (updatePayload a now).lookup "Food Score"
          = some (NotionVal.number (JsonVal.num 0))) := by
  intro a now
  refine ⟨rfl, rfl, rfl, rfl, rfl, fun h => ?_⟩
  have hz : pyGetD a "food_score" (JsonVal.num 0) = JsonVal.num 0 := by
    simp [pyGetD, h]
  calc (updatePayload a now).lookup "Food Score"
      = some (NotionVal.number (pyGetD a "food_score" (JsonVal.num 0))) := rfl
    _ = some (NotionVal.number (JsonVal.num 0)) := by rw [hz]

/-- C2 witness: the defaulting branch of `C2_passthrough_defaults` at the
empty parsed dict. -/
theorem C2_passthrough_defaults_witness :
    (updatePayload [] "2026-01-01T00:00:00").lookup "Food Score"
      = some (NotionVal.number (JsonVal.num 0)) :=
  (C2_passthrough_defaults [] "2026-01-01T00:00:00").2.2.2.2.2 rfl

/-- C3: `update_notion_entry` issues exactly one PATCH request, and that
single request's payload contains both the completion flag set to true and
every nutrition data field — the flag is never carried by a separate earlier
or later request. -/
theorem C3_single_patch_flag_with_data :
    ∀ (id : String) (a : List (String × JsonVal)) (now : String) (ok : Bool),
    (update_notion_entry id a now ok).1 = [⟨id, updatePayload a now⟩]
    ∧ (updatePayload a now).lookup "AI Analysis Done" = some (NotionVal.checkbox true)
    ∧ (updatePayload a now).map Prod.fst =
        ["Food Name", "AI Analysis Done", "KCal Count", "Protein (g)", "Carbs (g)",
         "Fat (g)", "Food Score", "AI Insight", "Healthy Tips", "Analysis DateTime"] :=
  fun _ _ _ _ => ⟨rfl, rfl, rfl⟩

/-- C4: once a record's image is extracted and its analysis parsed, a
renderer failure (exception or `None`) does not change the write-back: the
same single PATCH request is emitted, it is nonempty, and the record's
success outcome equals the PATCH transport outcome under every renderer
behavior. -/
theorem C4_render_failure_never_blocks_writeback :
    ∀ (img : Option (List Nat)) (api : Except Unit String) (pok : Bool)
      (r1 r2 : Except Unit (Option (List Nat))) (id now : String),
    pyFalsy img = false →
    pyFalsy (analyze_food_with_openai api) = false →
    (process_food_entry id ⟨img, api, r1, pok⟩ now).1 = pok
    ∧ (process_food_entry id ⟨img, api, r1, pok⟩ now).1
        = (process_food_entry id ⟨img, api, r2, pok⟩ now).1
    ∧ patchEffects (process_food_entry id ⟨img, api, r1, pok⟩ now).2
        = patchEffects (process_food_entry id ⟨img, api, r2, pok⟩ now).2
    ∧ patchEffects (process_food_entry id ⟨img, api, r1, pok⟩ now).2 ≠ [] := by
  intro img api pok r1 r2 id now h1 h2
  have key : ∀ r : Except Unit (Option (List Nat)),
      (process_food_entry id ⟨img, api, r, pok⟩ now).1 = pok
      ∧ patchEffects (process_food_entry id ⟨img, api, r, pok⟩ now).2
          = [Effect.patchRequest id
              (updatePayload ((analyze_food_with_openai api).getD []) now)] := by
    intro r
    simp only [process_food_entry, h1, Bool.false_eq_true, if_false]
    simp only [h2, Bool.false_eq_true, if_false, update_notion_entry]
    refine ⟨by trivial, ?_⟩
    simp only [patchEffects, List.filter_append, List.map_cons, List.map_nil]
    split
    · simp [isPatch, List.filter]
    · simp [isPatch, List.filter]
  exact ⟨(key r1).1, by rw [(key r1).1, (key r2).1],
    by rw [(key r1).2, (key r2).2], by rw [(key r1).2]; simp⟩

/-- C4 witness: `C4_render_failure_never_blocks_writeback` applied to a
concrete record whose renderer raises versus one whose renderer succeeds. -/
theorem C4_witness :
    (process_food_entry "e" ⟨some [1], Except.ok "\x7b\"food_name\":\"Dal\"\x7d",
        Except.error (), true⟩ "T").1
      = (process_food_entry "e" ⟨some [1], Except.ok "\x7b\"food_name\":\"Dal\"\x7d",
        Except.ok (some [7]), true⟩ "T").1 :=
  (C4_render_failure_never_blocks_writeback (some [1])
    (Except.ok "\x7b\"food_name\":\"Dal\"\x7d") true (Except.error ())
    (Except.ok (some [7])) "e" "T" rfl rfl).2.1

/-- C5 counterexample: a record with no photo (`imageData = none`, all other
collaborators healthy) produces exactly the same result — `False` with no
effects — as a record whose analysis fails, so its outcome is not distinct
from a `Failed` outcome. -/
theorem C5_counterexample :
    process_food_entry "entry1"
        ⟨none, Except.ok "\x7b\"food_name\":\"Dal\"\x7d", Except.ok none, true⟩ "T"
      = process_food_entry "entry1" ⟨some [1], Except.error (), Except.ok none, true⟩ "T"
    ∧ (process_food_entry "entry1"
        ⟨none, Except.ok "\x7b\"food_name\":\"Dal\"\x7d", Except.ok none, true⟩ "T").1
      = false :=
  ⟨rfl, rfl⟩

/-- C5 (amended): a record with no photo attachment returns the unsuccessful
outcome `False` — the same value a failed record returns, distinguished only
by a log line — and produces no effects at all: no PATCH request is sent, so
the record is never marked analysis-complete. -/
theorem C5_skip_no_writeback :
    ∀ (o : Oracle) (id now : String),
    pyFalsy o.imageData = true → process_food_entry id o now = (false, []) := by
  intro o id now h
  simp [process_food_entry, h]

/-- C5 witness: `C5_skip_no_writeback` at a concrete photo-less record. -/
theorem C5_skip_no_writeback_witness :
    process_food_entry "entry9" ⟨none, Except.ok "x", Except.ok none, true⟩ "T"
      = (false, []) :=
  C5_skip_no_writeback ⟨none, Except.ok "x", Except.ok none, true⟩ "entry9" "T" rfl

/-- C6: processing is per-record: whatever failures the middle record's
oracle encodes, the run processes every record of the batch, never aborts,
and ends with a summary whose success count is the sum of the independent
per-record contributions. -/
theorem C6_isolation_and_summary :
    ∀ (l1 l2 : List (String × Oracle)) (e : String × Oracle) (now : String),
    mainRun (l1 ++ e :: l2) now =
      ⟨l1.length + 1 + l2.length,
       some (runBatch l1 now
         + (if (process_food_entry e.1 e.2 now).1 then 1 else 0)
         + runBatch l2 now)⟩ := by
  intro l1 l2 e now
  have hne : (l1 ++ e :: l2).isEmpty = false := by
    cases l1 <;> simp [List.isEmpty]
  simp only [mainRun, hne, Bool.false_eq_true, if_false]
  have hlen : (l1 ++ e :: l2).length = l1.length + 1 + l2.length := by
    simp [List.length_append]
    omega
  have hcount : runBatch (l1 ++ e :: l2) now
      = runBatch l1 now
        + (if (process_food_entry e.1 e.2 now).1 then 1 else 0)
        + runBatch l2 now := by
    rw [runBatch_append, runBatch_cons]
    omega
  rw [hlen, hcount]

/-- C7: `get_notion_database_items` returns an empty batch on transport
failure; otherwise it filters the page-size-bounded response locally, so it
returns at most `page_size` records, never returns a record whose completion
checkbox is checked, and always includes records whose flag is absent or not
of checkbox type. -/
theorem C7_fetch_pending :
    ∀ (results : List NotionPage),
    get_notion_database_items (Except.error ()) = []
    ∧ (results.length ≤ query_page_size →
        (get_notion_database_items (Except.ok results)).length ≤ query_page_size)
    ∧ (∀ e ∈ get_notion_database_items (Except.ok results), ∀ p,
        e.analysisDone = some p → p.ptype = some "checkbox" → p.checked ≠ some true)
    ∧ (∀ e ∈ results, e.analysisDone = none →
        e ∈ get_notion_database_items (Except.ok results))
    ∧ (∀ e ∈ results, ∀ p, e.analysisDone = some p → p.ptype ≠ some "checkbox" →
        e ∈ get_notion_database_items (Except.ok results)) := by
  intro results
  refine ⟨rfl, ?_, ?_, ?_, ?_⟩
  · intro h
    exact le_trans (List.length_filter_le _ _) h
  · intro e he p hp htype
    have hnc : notCompleted e = true := (List.mem_filter.mp he).2
    intro hchecked
    simp [notCompleted, hp, htype, hchecked] at hnc
  · intro e he hnone
    refine List.mem_filter.mpr ⟨he, ?_⟩
    simp [notCompleted, hnone]
  · intro e he p hp htype
    refine List.mem_filter.mpr ⟨he, ?_⟩
    simp [notCompleted, hp, htype]

/-- C7 witness: `C7_fetch_pending` at a concrete response containing a
completed record, a flag-less record and a non-checkbox-typed record. -/
theorem C7_fetch_pending_witness :
    (get_notion_database_items (Except.ok
        [⟨"done", some ⟨some "checkbox", some true⟩⟩, ⟨"fresh", none⟩,
         ⟨"odd", some ⟨some "formula", some true⟩⟩])).length ≤ query_page_size
    ∧ (⟨"fresh", none⟩ : NotionPage) ∈ get_notion_database_items (Except.ok
        [⟨"done", some ⟨some "checkbox", some true⟩⟩, ⟨"fresh", none⟩,
         ⟨"odd", some ⟨some "formula", some true⟩⟩]) :=
  ⟨(C7_fetch_pending _).2.1 (by decide),
   (C7_fetch_pending _).2.2.2.1 ⟨"fresh", none⟩ (by decide) rfl⟩

/-- C8: the write-back patch assigns absolute values to a fixed field set,
so applying it twice with the same estimate (same timestamp) equals applying
it once, and even across two timestamps the second application fully
overwrites the first — no field accumulates. -/
theorem C8_writeBack_idempotent :
    ∀ (s : String → Option NotionVal) (a : List (String × JsonVal))
      (now t1 t2 : String),
    applyProps (applyProps s (updatePayload a now)) (updatePayload a now)
        = applyProps s (updatePayload a now)
    ∧ applyProps (applyProps s (updatePayload a t1)) (updatePayload a t2)
        = applyProps s (updatePayload a t2) :=
  fun s a now t1 t2 =>
    ⟨applyProps_overwrite s (updatePayload a now) (updatePayload a now) rfl,
     applyProps_overwrite s (updatePayload a t1) (updatePayload a t2) rfl⟩

/-- C9: the badge colour computed by `generate_score_color` agrees with the
specification's threshold table (lower-inclusive boundaries, config
thresholds and palette) at every score. -/
theorem C9_score_color_matches_spec :
    ∀ score : Rat, generate_score_color score = specBadgeColor score := by
  intro s
  have h1 : thrGet "fair" = 40 := rfl
  have h2 : thrGet "good" = 60 := rfl
  have h3 : thrGet "excellent" = 80 := rfl
  have p1 : palGet PDF_COLOR_PALETTE "danger" = "#EF4444" := rfl
  have p2 : palGet PDF_COLOR_PALETTE "warning" = palGet COLOR_PALETTE "warning" := rfl
  have p3 : palGet PDF_COLOR_PALETTE "accent_2" = palGet COLOR_PALETTE "accent_2" := rfl
  have p4 : palGet PDF_COLOR_PALETTE "success" = palGet COLOR_PALETTE "success" := rfl
  unfold generate_score_color specBadgeColor
  rw [h1, h2, h3, p1, p2, p3, p4]
  split_ifs <;> first | rfl | linarith

/-- C10: when the PATCH transport fails, the record's effects contain no
artifact save, whatever the renderer produced — the PDF file is written only
after a successful write-back. -/
theorem C10_no_artifact_without_writeback :
    ∀ (o : Oracle) (id now : String),
    o.patchOk = false → ((process_food_entry id o now).2.filter isSave) = [] := by
  intro o id now h
  cases himg : pyFalsy o.imageData
  · cases hana : pyFalsy (analyze_food_with_openai o.apiResponse)
    · simp [process_food_entry, himg, hana, update_notion_entry, h, isSave,
        List.filter]
    · simp [process_food_entry, himg, hana]
  · simp [process_food_entry, himg]

/-- C10 witness: `C10_no_artifact_without_writeback` at a record whose
rendering succeeded but whose write-back failed. -/
theorem C10_no_artifact_without_writeback_witness :
    ((process_food_entry "e" ⟨some [1], Except.ok "\x7b\"food_name\":\"Dal\"\x7d",
        Except.ok (some [7]), false⟩ "T").2.filter isSave) = [] :=
  C10_no_artifact_without_writeback
    ⟨some [1], Except.ok "\x7b\"food_name\":\"Dal\"\x7d", Except.ok (some [7]), false⟩
    "e" "T" rfl

end FoodInsight
